import Mathlib

/-!
Verification of the Discussify backend's community / post / auth controllers.

The controllers in `src/Controllers` are shallowly embedded as pure Lean
functions: the document store is a list of records passed explicitly, external
collaborators (Mongoose `ObjectId.isValid`, the socket broadcast, the
notification bulk insert, the random OTP, the password hash) are parameters,
and each handler returns the HTTP response it would send (status, flags,
message) together with the state it would persist.

The Mongoose model files (`Models/Community.js`, `Models/Post.js`,
`Models/UserModel.js`) are not part of the available source; their instance
methods (`addMember`, `isMember`, `isBanned`, `upvote`,
`verifyResetPasswordOTP`) are modelled from the specification and marked as
such in their doc comments.

The file is organised as: all definitions first, then the theorems about
them.
-/

/-! # Definitions -/

/-! ## Community data model -/

inductive MemberRole
  | admin
  | member
deriving DecidableEq, Repr

/--
The source's visibility strings are 'public', 'private' and 'hidden'; the
first two are Lean keywords, hence the `v` prefix on the constructor names.
-/
inductive Visibility
  | vpublic
  | vprivate
  | vhidden
deriving DecidableEq, Repr

structure Member where
  user : Nat
  role : MemberRole
deriving DecidableEq, Repr

structure Community where
  id : String
  slug : String
  name : String
  description : String
  categories : List String
  visibility : Visibility
  admin : Nat
  members : List Member
  bannedUsers : List Nat
  memberCount : Nat
deriving DecidableEq, Repr

/--
`findCommunity` from `src/Controllers/communityController.js` lines 16-40.
The Mongoose `ObjectId.isValid` check is an external collaborator, passed in
as the predicate `isObjectId`.  `Community.findOne` on a condition is embedded
as `List.find?` over the store.  Attempt 1: search by `_id` if the input looks
like an ObjectId; attempt 2: if that found nothing (or the input was not a
valid ObjectId), search by `slug`.
-/
def findCommunity (isObjectId : String → Bool) (db : List Community)
    (idOrSlug : String) : Option Community :=
  let byId : Option Community :=
    if isObjectId idOrSlug then db.find? (fun c => c.id == idOrSlug) else none
  match byId with
  | some c => some c
  | none => db.find? (fun c => c.slug == idOrSlug)

/--
Modelled from the spec: membership predicate helper `isMember(userId)` on the
Community model (the model file is not in the available source) — a pure
set-membership check against `members`.
-/
def Community.isMember (c : Community) (userId : Nat) : Bool :=
  c.members.any (fun m => m.user == userId)

/--
Modelled from the spec: membership predicate helper `isBanned(userId)` on the
Community model (the model file is not in the available source) — a pure
set-membership check against `bannedUsers`.
-/
def Community.isBanned (c : Community) (userId : Nat) : Bool :=
  c.bannedUsers.contains userId

/--
Modelled from the spec: `addMember(userId)` on the Community model (the model
file is not in the available source) — on success it appends
`\x7b user, role: member \x7d` to `members` and increments `memberCount`.
-/
def Community.addMember (c : Community) (userId : Nat) : Community :=
  { c with
      members := c.members ++ [{ user := userId, role := .member }],
      memberCount := c.memberCount + 1 }

/--
`createCommunity` from `src/Controllers/communityController.js` lines 167-233,
reduced to its data effect.  Validation: name, description and categories must
be present (in JS an empty `categories` array is truthy, so the body value is
an `Option`); on failure the handler responds 400 and creates nothing
(`none`).  On success it persists a community whose `members` list holds the
creator as sole admin member and whose `memberCount` is initialised to 1.
The store-generated id and the name-derived slug are parameters.  Visibility
uses the schema default (`vpublic`, i.e. the source's public).  The
duplicate-name path (error code 11000) also creates nothing and is outside
this embedding's success case.
-/
def createCommunity (name description : String)
    (categories : Option (List String)) (userId : Nat)
    (newId newSlug : String) : Option Community :=
  if name == "" || description == "" || categories.isNone then
    none
  else
    some { id := newId, slug := newSlug, name := name,
           description := description,
           categories := categories.getD [],
           visibility := .vpublic,
           admin := userId,
           members := [{ user := userId, role := .admin }],
           bannedUsers := [],
           memberCount := 1 }

/--
Outcome of the `joinCommunity` handler: the HTTP error responses of
`src/Controllers/communityController.js` lines 328-350, or success carrying
the updated community document (line 353).
-/
inductive JoinOutcome
  | notFound
  | bannedError
  | alreadyMember
  | privateError
  | success (c : Community)
deriving DecidableEq, Repr

/--
`joinCommunity` from `src/Controllers/communityController.js` lines 320-379:
resolve via `findCommunity`; 404 if absent; 403 if the user is banned; 400 if
already a member; 403 if the community is private; otherwise `addMember`.
(The follow-up `$addToSet` on the user's `joinedCommunities` cache touches the
user document only and is not part of this community-store embedding.)
-/
def joinCommunity (isObjectId : String → Bool) (db : List Community)
    (idOrSlug : String) (userId : Nat) : JoinOutcome :=
  match findCommunity isObjectId db idOrSlug with
  | none => .notFound
  | some community =>
    if community.isBanned userId then .bannedError
    else if community.isMember userId then .alreadyMember
    else if community.visibility == .vprivate then .privateError
    else .success (community.addMember userId)

/-! ## Concrete sample data used by the witness theorems -/

/-- A public community owned by user 7, as `createCommunity` would persist it. -/
def leanCommunity : Community :=
  { id := "id1", slug := "lean", name := "Lean", description := "proofs",
    categories := ["math"], visibility := .vpublic, admin := 7,
    members := [{ user := 7, role := .admin }], bannedUsers := [],
    memberCount := 1 }

/-- A private community where user 7 is a member and user 5 is banned. -/
def clubCommunity : Community :=
  { id := "idp", slug := "club", name := "Club", description := "d",
    categories := [], visibility := .vprivate, admin := 7,
    members := [{ user := 7, role := .admin }], bannedUsers := [5],
    memberCount := 1 }

/-! ## Post data model and post controller -/

inductive PostType
  | text
  | image
  | video
deriving DecidableEq, Repr

structure PostRec where
  id : String
  community : String
  author : Nat
  title : String
  content : String
  type : PostType
  images : List String
  videoUrl : Option String
  upvotes : List Nat
  isDeleted : Bool
deriving DecidableEq, Repr

/--
Modelled from the spec: the `upvote(userId)` instance method of the Post model
(the model file is not in the available source) — it toggles membership of
`userId` in the post's upvote set: removes the user if present, appends the
user if absent.
-/
def PostRec.upvote (p : PostRec) (userId : Nat) : PostRec :=
  if p.upvotes.contains userId then
    { p with upvotes := p.upvotes.filter (fun v => v != userId) }
  else
    { p with upvotes := p.upvotes ++ [userId] }

/--
`togglePostVote` from `src/Controllers/postController.js` lines 142-168,
reduced to its data effect: `Post.findById` is `List.find?` on the post
store; a missing post yields `none` (the 404 response); otherwise the found
post with `upvote(userId)` applied is saved and returned (200).  The
`postUpdated` broadcast carries no data effect on the store.
-/
def togglePostVote (db : List PostRec) (postId : String) (userId : Nat) :
    Option PostRec :=
  match db.find? (fun p => p.id == postId) with
  | none => none
  | some post => some (post.upvote userId)

/-- A persisted notification; the free-form `data` payload of the source is
flattened into the `dataCommunityId` / `dataPostId` fields. -/
structure NotificationRec where
  user : Nat
  type : String
  title : String
  message : String
  dataCommunityId : String
  dataPostId : String
deriving DecidableEq, Repr

/--
`notifyCommunityMembers` from `src/Controllers/postController.js` lines
14-37, returning the notifications that end up persisted.
`Community.findById` is `List.find?` on the community store by id; if the
community is absent the helper returns early (no notifications).  Otherwise
one notification is built per member whose id differs from the author's, and
`Notification.insertMany` persists them; the whole body is wrapped in
try/catch, so when the bulk insert fails (`insertOk = false`) the error is
logged and swallowed and nothing is persisted.
-/
def notifyCommunityMembers (db : List Community) (insertOk : Bool)
    (postContent postId communityId : String) (authorId : Nat)
    (authorUsername : String) : List NotificationRec :=
  match db.find? (fun c => c.id == communityId) with
  | none => []
  | some community =>
    let memberIds :=
      (community.members.filter (fun m => m.user != authorId)).map
        (fun m => m.user)
    let notifications := memberIds.map (fun memberId =>
      { user := memberId, type := "post",
        title := "New Post in " ++ community.name,
        message := authorUsername ++ " posted: " ++ postContent.take 50 ++ "...",
        dataCommunityId := communityId, dataPostId := postId
        : NotificationRec })
    if insertOk then notifications else []

structure CreatePostResp where
  status : Nat
  success : Bool
deriving DecidableEq, Repr

/-- An upload already staged by the multer middleware: its stored filename and
the lower-cased extension of the original name. -/
structure StagedUpload where
  filename : String
  originalExt : String
deriving DecidableEq, Repr

/--
`createPost` from `src/Controllers/postController.js` lines 44-101, returning
the HTTP response, the persisted post (if any) and the persisted
notifications.  Validation only requires `content` and `communityId` to be
present (missing is the falsy empty string); no community-existence or
membership check is made.  A staged file is classified by extension into
image/video/fallback-image.  `Post.create` persists the post; then the
handler emits `newPost` to the community channel — this call sits inside the
handler's try block, so if the broadcast throws (`broadcastOk = false`) the
catch responds 500 even though the post was created, and
`notifyCommunityMembers` is never reached.  The notification helper is called
without `await` and swallows its own errors, so `insertOk` never affects the
response.
-/
def createPost (db : List Community) (content communityId title : String)
    (author : Nat) (authorUsername : String) (file : Option StagedUpload)
    (broadcastOk insertOk : Bool) (newPostId : String) :
    CreatePostResp × Option PostRec × List NotificationRec :=
  if content == "" || communityId == "" then
    ({ status := 400, success := false }, none, [])
  else
    let base : PostRec :=
      { id := newPostId, community := communityId, author := author,
        title := if title == "" then content.take 50 else title,
        content := content, type := .text, images := [], videoUrl := none,
        upvotes := [], isDeleted := false }
    let newPost : PostRec :=
      match file with
      | none => base
      | some f =>
        let filePath := "http://localhost:3001/uploads/" ++ f.filename
        if [".jpg", ".jpeg", ".png", ".gif", ".webp"].contains f.originalExt then
          { base with type := .image, images := [filePath] }
        else if [".mp4", ".mov", ".webm"].contains f.originalExt then
          { base with type := .video, videoUrl := some filePath }
        else
          { base with type := .image, images := [filePath] }
    if !broadcastOk then
      ({ status := 500, success := false }, some newPost, [])
    else
      ({ status := 201, success := true }, some newPost,
        notifyCommunityMembers db insertOk content newPostId communityId
          author authorUsername)

/-- A community with author 1 and three other members, for the C4 theorems. -/
def postersCommunity : Community :=
  { id := "cid1", slug := "posters", name := "Posters", description := "d",
    categories := [], visibility := .vpublic, admin := 1,
    members := [{ user := 1, role := .admin }, { user := 2, role := .member },
                { user := 3, role := .member }, { user := 4, role := .member }],
    bannedUsers := [], memberCount := 4 }

/-! ## Identity store and auth controller -/

/-- A stored user record, restricted to the fields the auth claims touch. -/
structure AuthUser where
  id : Nat
  username : String
  email : String
  password : String
  bio : String
  resetPasswordToken : Option String
  resetPasswordExpires : Option Nat
deriving DecidableEq, Repr

/--
The register email check `email.match(/.+@.+\..+/)` of
`src/Controllers/AuthController.js` line 157: an unanchored search for one or
more non-newline characters, an at sign, one or more non-newline characters,
a literal dot, and one or more non-newline characters.  A match exists
exactly when some position `i` holds an at sign directly preceded by a
non-newline character and some position `j` at least two past `i` holds a dot
directly followed by a non-newline character, with only non-newline
characters strictly between `i` and `j`.
-/
def emailMatches (email : String) : Bool :=
  let cs := email.data
  let n := cs.length
  (List.range n).any fun i =>
    (List.range n).any fun j =>
      decide (1 ≤ i) && decide (i + 2 ≤ j) && decide (j + 2 ≤ n) &&
      (cs.getD i ' ' == '@') && (cs.getD j ' ' == '.') &&
      (cs.getD (i - 1) ' ' != '\n') && (cs.getD (j + 1) ' ' != '\n') &&
      ((List.range (j - i - 1)).all fun k => cs.getD (i + 1 + k) ' ' != '\n')

/-- A file staged on disk by the multer middleware before `register` runs. -/
structure StagedFile where
  path : String
  size : Nat
deriving DecidableEq, Repr

/--
A register request body plus the optionally staged file.  A missing text
field arrives as the JS-falsy empty string; `interests` is absent (`none`) or
a raw string, falsy when absent or empty.
-/
structure RegisterReq where
  username : String
  email : String
  password : String
  bio : String
  interests : Option String
  file : Option StagedFile
deriving DecidableEq, Repr

/-- What `register` responds together with the fate of the staged upload:
whether the handler deleted it before responding, and whether a user was
created. -/
structure RegisterOutcome where
  status : Nat
  message : String
  fileDeleted : Bool
  created : Bool
deriving DecidableEq, Repr

/--
A later validation or conflict branch of `register`.  The source runs
`if (req.file) fs.unlinkSync(req.file.path)` and then returns a 400 carrying
`msg` — but `fs` is imported from 'fs/promises' (AuthController.js line 4),
which has no `unlinkSync`, so with a file staged the call throws a TypeError
instead.  The catch at line 279 then deletes the staged file via
`await fs.unlink(req.file.path)` (guarded by `if (req.file)`, errors
swallowed) and, since the thrown error's name is 'TypeError' rather than
'ValidationError', responds 500 with the thrown error's message.  Without a
staged file the branch returns its intended 400 response — unreachable from
`register`, whose first branch already requires a file.
-/
def registerFailBranch (r : RegisterReq) (msg : String) : RegisterOutcome :=
  if r.file.isSome then
    { status := 500, message := "fs.unlinkSync is not a function",
      fileDeleted := true, created := false }
  else
    { status := 400, message := msg, fileDeleted := false, created := false }

/--
`register` from `src/Controllers/AuthController.js` lines 134-301, reduced to
the response and the fate of the staged upload.  The missing-required-field
branch (line 143) returns 400 without touching the staged file.  Each later
validation or conflict branch is a `registerFailBranch`: the source text
intends "delete the staged file, return 400 with this message", but its
`fs.unlinkSync` call throws (see `registerFailBranch`), so whenever a file is
staged — always, past the first branch — these branches respond 500 with the
file deleted by the catch, and the written 400 messages are unreachable.
The maximum image size comes from `config.js` (not in the available source)
and is a parameter.  The interests-parsing block (lines 175-195) only
normalises the interests value and cannot change the control flow, so it is
not modelled.  The duplicate check is `User.findOne` on email-or-username,
its intended message chosen by whether the email matched.  On success a user
is created and a 201 response returned (no `unlinkSync` on this path); OTP
generation and the notification write do not affect the fields modelled
here.
-/
def register (maxImageSize : Nat) (db : List AuthUser) (r : RegisterReq) :
    RegisterOutcome :=
  if r.username == "" || r.email == "" || r.password == "" || r.bio == "" ||
      r.file.isNone || r.interests.getD "" == "" then
    { status := 400,
      message := "Please provide username, email, password, bio, and profile image",
      fileDeleted := false, created := false }
  else if r.password.length < 6 then
    registerFailBranch r "Password must be at least 6 characters long."
  else if !(emailMatches r.email) then
    registerFailBranch r "Invalid email format."
  else if r.bio.length > 250 then
    registerFailBranch r "Bio cannot exceed 250 characters."
  else if ((r.file.map (fun f => f.size)).getD 0) > maxImageSize then
    registerFailBranch r "Image file size exceeds the configured limit."
  else
    match db.find? (fun u => u.email == r.email || u.username == r.username) with
    | some existingUser =>
      registerFailBranch r
        (if existingUser.email == r.email then "Email already registered"
         else "Username already taken")
    | none =>
      { status := 201,
        message := "Registration successful. Please check your notifications for OTP.",
        fileDeleted := false, created := true }

/-- The response of `forgotPassword`: status, success flag, message, and the
OTP value when the handler includes it in the payload. -/
structure ForgotResp where
  status : Nat
  success : Bool
  message : String
  otp : Option String
deriving DecidableEq, Repr

/--
`forgotPassword` from `src/Controllers/AuthController.js` lines 16-67,
reduced to its response.  The freshly generated reset OTP
(`user.getResetPasswordOTP()`, random) is the parameter `resetOTP`.  A
missing email responds 400; an unknown email responds 200 with a generic
message and no OTP field; a known email stores the OTP on the user, writes a
notification (both outside this response embedding) and responds 200 with a
different message and the OTP included in the payload.
-/
def forgotPassword (db : List AuthUser) (resetOTP : String)
    (email : String) : ForgotResp :=
  if email == "" then
    { status := 400, success := false,
      message := "Please provide the registered email address.", otp := none }
  else
    match db.find? (fun u => u.email == email) with
    | none =>
      { status := 200, success := true,
        message := "If the account exists, a password reset code has been sent to your notifications.",
        otp := none }
    | some _ =>
      { status := 200, success := true,
        message := "Password reset code successfully sent to your notifications.",
        otp := some resetOTP }

/--
Modelled from the spec: `verifyResetPasswordOTP` on the User model (the model
file is not in the available source) — true only if a reset code exists, is
unexpired at the current time, and matches the submitted code exactly.
-/
def AuthUser.verifyResetPasswordOTP (u : AuthUser) (otp : String)
    (now : Nat) : Bool :=
  match u.resetPasswordToken, u.resetPasswordExpires with
  | some token, some expires => token == otp && decide (now ≤ expires)
  | _, _ => false

/-- The response of `resetPassword` together with the user state it saves. -/
structure ResetResult where
  status : Nat
  success : Bool
  message : String
  savedUser : Option AuthUser
deriving DecidableEq, Repr

/--
`resetPassword` from `src/Controllers/AuthController.js` lines 71-130.
Missing fields respond 400; a short new password responds 400; an unknown
email responds 404.  An invalid or expired OTP clears the stored reset token
and expiry, saves the user, and responds 400; a valid OTP stores the hashed
new password (the pre-save hashing hook is the parameter `hash`), clears the
reset fields and responds 200.
-/
def resetPassword (hash : String → String) (db : List AuthUser) (now : Nat)
    (email otp newPassword : String) : ResetResult :=
  if email == "" || otp == "" || newPassword == "" then
    { status := 400, success := false,
      message := "Please provide email, OTP, and the new password.",
      savedUser := none }
  else if newPassword.length < 6 then
    { status := 400, success := false,
      message := "New password must be at least 6 characters long.",
      savedUser := none }
  else
    match db.find? (fun u => u.email == email) with
    | none =>
      { status := 404, success := false, message := "User not found.",
        savedUser := none }
    | some user =>
      if user.verifyResetPasswordOTP otp now then
        { status := 200, success := true,
          message := "Password successfully reset! You can now log in with your new password.",
          savedUser := some { user with
            password := hash newPassword,
            resetPasswordToken := none,
            resetPasswordExpires := none } }
      else
        { status := 400, success := false,
          message := "Invalid or expired OTP. Please restart the forgot password process.",
          savedUser := some { user with
            resetPasswordToken := none,
            resetPasswordExpires := none } }

/-- A user with a live reset code "111111" expiring at time 100. -/
def resetUser : AuthUser :=
  { id := 1, username := "ann", email := "ann@mail.com", password := "old",
    bio := "hi", resetPasswordToken := some "111111",
    resetPasswordExpires := some 100 }

/-- `resetUser` after a failed OTP submission cleared the reset fields. -/
def clearedResetUser : AuthUser :=
  { resetUser with resetPasswordToken := none, resetPasswordExpires := none }

/-- A register request with a staged file but a missing username. -/
def orphanReq : RegisterReq :=
  { username := "", email := "bob@mail.com", password := "secret1",
    bio := "hello", interests := some "tech",
    file := some { path := "uploads/x.png", size := 100 } }

/-- A post already upvoted by user 5, for the C3 witness. -/
def votedPost : PostRec :=
  { id := "p1", community := "cid1", author := 2, title := "t", content := "c",
    type := .text, images := [], videoUrl := none, upvotes := [5],
    isDeleted := false }

/-! # Theorems -/

/-! ## C1 -/

/--
C1: community resolution tries the id lookup first whenever the input is a
syntactically valid object id, and falls back to the slug lookup only when
the id lookup found nothing (or the input was not a valid id).  Hence if a
community with that id exists it is returned even when a different
community's slug equals the input string, and `none` (NotFound) is returned
exactly when neither lookup matches.
-/
theorem findCommunity_id_precedence (isObjectId : String → Bool)
    (db : List Community) (s : String) :
    (∀ c, isObjectId s = true → db.find? (fun x => x.id == s) = some c →
      findCommunity isObjectId db s = some c) ∧
    (findCommunity isObjectId db s = none ↔
      ((if isObjectId s then db.find? (fun x => x.id == s) else none) = none ∧
        db.find? (fun x => x.slug == s) = none)) := by
  constructor
  · intro c hvalid hfind
    simp [findCommunity, hvalid, hfind]
  · unfold findCommunity
    cases hbyId : (if isObjectId s then db.find? (fun x => x.id == s) else none) with
    | some c => simp [hbyId]
    | none => simp [hbyId]

/--
C1 witness: a store holding a community whose id is the input string and a
different community whose slug equals that same string; resolution returns
the id match.
-/
theorem findCommunity_id_precedence_witness :
    findCommunity (fun s => s == "65aa0000000000000000aaaa")
      [{ id := "65aa0000000000000000aaaa", slug := "alpha", name := "A",
         description := "a", categories := [], visibility := .vpublic,
         admin := 1, members := [], bannedUsers := [], memberCount := 0 },
       { id := "65bb0000000000000000bbbb", slug := "65aa0000000000000000aaaa",
         name := "B", description := "b", categories := [],
         visibility := .vpublic, admin := 2, members := [],
         bannedUsers := [], memberCount := 0 }]
      "65aa0000000000000000aaaa" =
      some { id := "65aa0000000000000000aaaa", slug := "alpha", name := "A",
             description := "a", categories := [], visibility := .vpublic,
             admin := 1, members := [], bannedUsers := [], memberCount := 0 } :=
  (findCommunity_id_precedence (fun s => s == "65aa0000000000000000aaaa") _ _).1
    _ (by decide) (by decide)

/-! ## C2 -/

/--
C2: the member-count invariant.  A community produced by `createCommunity` has
exactly one member (the creator) and `memberCount = 1 = |members|`; and a
successful `joinCommunity` appends exactly one member entry and increments
`memberCount` by exactly one, so the invariant `memberCount = |members|` is
preserved by the join.
-/
theorem memberCount_matches_members :
    (∀ name description categories userId newId newSlug c,
      createCommunity name description categories userId newId newSlug = some c →
      c.memberCount = c.members.length ∧ c.memberCount = 1) ∧
    (∀ isObjectId db idOrSlug userId c',
      joinCommunity isObjectId db idOrSlug userId = .success c' →
      ∃ c, findCommunity isObjectId db idOrSlug = some c ∧
        c'.members.length = c.members.length + 1 ∧
        c'.memberCount = c.memberCount + 1 ∧
        (c.memberCount = c.members.length → c'.memberCount = c'.members.length)) := by
  constructor
  · intro name description categories userId newId newSlug c hc
    unfold createCommunity at hc
    by_cases h : (name == "" || description == "" || categories.isNone) = true
    · simp [h] at hc
    · simp [h] at hc
      subst hc
      simp
  · intro isObjectId db idOrSlug userId c' h
    unfold joinCommunity at h
    cases hfind : findCommunity isObjectId db idOrSlug with
    | none => simp [hfind] at h
    | some c =>
      refine ⟨c, rfl, ?_⟩
      rw [hfind] at h
      by_cases hb : c.isBanned userId = true
      · simp [hb] at h
      · by_cases hm : c.isMember userId = true
        · simp [hb, hm] at h
        · by_cases hv : (c.visibility == .vprivate) = true
          · simp [hb, hm, hv] at h
          · simp [hb, hm, hv] at h
            subst h
            simp [Community.addMember]

/--
C2 witness: the community created by user 7 has `memberCount = |members| = 1`,
and after user 9 joins it the invariant still holds.
-/
theorem memberCount_matches_members_witness :
    leanCommunity.memberCount = leanCommunity.members.length ∧
    leanCommunity.memberCount = 1 ∧
    (leanCommunity.addMember 9).memberCount =
      (leanCommunity.addMember 9).members.length := by
  have h1 := memberCount_matches_members.1 "Lean" "proofs" (some ["math"]) 7
    "id1" "lean" leanCommunity (by decide)
  have h2 := memberCount_matches_members.2 (fun _ => false) [leanCommunity]
    "lean" 9 (leanCommunity.addMember 9) (by decide)
  obtain ⟨c, hfind, -, -, hinv⟩ := h2
  have hlean : findCommunity (fun _ => false) [leanCommunity] "lean" =
      some leanCommunity := by decide
  have hc : c = leanCommunity := Option.some.inj (hfind.symm.trans hlean)
  exact ⟨h1.1, h1.2, hinv (by rw [hc]; exact h1.1)⟩

/-! ## C9 -/

/--
C9: `joinCommunity` evaluates its guards in a fixed order — banned, then
already-member, then private-visibility.  For every resolved community a
banned user receives the ban error whatever the visibility (in particular for
a private community), and a user who is already a member receives the
already-a-member error rather than the private-community error, again
whatever the visibility.
-/
theorem joinCommunity_guard_order (isObjectId : String → Bool)
    (db : List Community) (idOrSlug : String) (userId : Nat) (c : Community)
    (hfind : findCommunity isObjectId db idOrSlug = some c) :
    (c.isBanned userId = true →
      joinCommunity isObjectId db idOrSlug userId = .bannedError) ∧
    (c.isBanned userId = false → c.isMember userId = true →
      joinCommunity isObjectId db idOrSlug userId = .alreadyMember) := by
  constructor
  · intro hb
    simp [joinCommunity, hfind, hb]
  · intro hb hm
    simp [joinCommunity, hfind, hb, hm]

/--
C9 witness: in the private `clubCommunity`, banned user 5's join attempt
yields the ban error (not the private error) and member user 7's yields the
already-a-member error (not the private error).
-/
theorem joinCommunity_guard_order_witness :
    joinCommunity (fun _ => false) [clubCommunity] "club" 5 = .bannedError ∧
    joinCommunity (fun _ => false) [clubCommunity] "club" 7 = .alreadyMember :=
  ⟨(joinCommunity_guard_order (fun _ => false) [clubCommunity] "club" 5
      clubCommunity (by decide)).1 (by decide),
   (joinCommunity_guard_order (fun _ => false) [clubCommunity] "club" 7
      clubCommunity (by decide)).2 (by decide) (by decide)⟩

/-! ## C3 -/

/-- The upvote set after one toggle, written as a single conditional. -/
theorem upvote_upvotes (p : PostRec) (u : Nat) :
    (p.upvote u).upvotes =
      if u ∈ p.upvotes then p.upvotes.filter (fun v => v != u)
      else p.upvotes ++ [u] := by
  by_cases h : u ∈ p.upvotes <;> simp [PostRec.upvote, h]

/--
C3: `togglePostVote` is an involution on the post's upvote set.  For an
existing post the handler returns the post with `upvote(userId)` applied (one
call adds the user if absent and removes the user if present), and applying
the toggle twice returns the upvote set to its original membership.
-/
theorem togglePostVote_involution (db : List PostRec) (postId : String)
    (userId : Nat) (p : PostRec)
    (hfind : db.find? (fun q => q.id == postId) = some p) :
    togglePostVote db postId userId = some (p.upvote userId) ∧
    ∀ x, (x ∈ ((p.upvote userId).upvote userId).upvotes ↔ x ∈ p.upvotes) := by
  constructor
  · simp [togglePostVote, hfind]
  · intro x
    rw [upvote_upvotes, upvote_upvotes]
    by_cases hmem : userId ∈ p.upvotes
    · rw [if_pos hmem]
      have hnot : userId ∉ p.upvotes.filter (fun v => v != userId) := by simp
      rw [if_neg hnot]
      by_cases hx : x = userId <;> simp [hx, hmem]
    · rw [if_neg hmem]
      have hin : userId ∈ p.upvotes ++ [userId] := by simp
      rw [if_pos hin]
      by_cases hx : x = userId <;> simp [hx, hmem]

/--
C3 witness: toggling user 5's vote on the concrete post that already holds
their vote removes it, and toggling twice restores the original membership.
-/
theorem togglePostVote_involution_witness :
    togglePostVote [votedPost] "p1" 5 = some (votedPost.upvote 5) ∧
    (5 ∈ ((votedPost.upvote 5).upvote 5).upvotes ↔ 5 ∈ votedPost.upvotes) := by
  have h := togglePostVote_involution [votedPost] "p1" 5 votedPost (by decide)
  exact ⟨h.1, h.2 5⟩

/-! ## C4 -/

/--
Counting helper for the notification fan-out: with pairwise-distinct member
ids, dropping one member that is present leaves `length - 1` entries.
-/
theorem length_filter_ne_user (members : List Member) (a : Nat)
    (hnodup : (members.map (fun m => m.user)).Nodup)
    (hmem : a ∈ members.map (fun m => m.user)) :
    (members.filter (fun m => m.user != a)).length = members.length - 1 := by
  induction members with
  | nil => simp at hmem
  | cons m ms ih =>
    simp only [List.map_cons, List.nodup_cons] at hnodup
    obtain ⟨hnotin, hnd⟩ := hnodup
    by_cases hma : m.user = a
    · have hall : ms.filter (fun x => x.user != a) = ms := by
        apply List.filter_eq_self.mpr
        intro x hx
        simp only [bne_iff_ne, ne_eq, decide_eq_true_eq]
        intro hxa
        exact hnotin (hma ▸ hxa ▸ List.mem_map_of_mem (fun m => m.user) hx)
      simp [List.filter_cons, hma, hall]
    · have hmem' : a ∈ ms.map (fun m => m.user) := by
        simp only [List.map_cons, List.mem_cons] at hmem
        rcases hmem with h | h
        · exact absurd h.symm hma
        · exact h
      have hpos : 1 ≤ ms.length := by
        have := List.length_pos.mpr (List.ne_nil_of_mem hmem')
        simpa using this
      have ihh := ih hnd hmem'
      have hkeep : (m :: ms).filter (fun x => x.user != a) =
          m :: ms.filter (fun x => x.user != a) := by
        simp [List.filter_cons, hma]
      rw [hkeep]
      simp only [List.length_cons]
      rw [ihh]
      omega

/--
C4 counterexample to the claim as stated: the broadcast emit sits inside the
handler's try block, so a broadcast failure makes the catch respond 500 — the
post-creation response fails — whereas the identical request with a working
broadcast responds 201.
-/
theorem createPost_broadcast_failure_counterexample :
    (createPost [postersCommunity] "hello" "cid1" "" 1 "alice" none true true
        "p1").1 = { status := 201, success := true } ∧
    (createPost [postersCommunity] "hello" "cid1" "" 1 "alice" none false true
        "p1").1 = { status := 500, success := false } := by
  constructor <;> rfl

/--
C4 amended: for every successful `createPost` (content and community id
present, broadcast not throwing) the fan-out creates exactly one notification
per member of the community excluding the author — with distinct member ids
and the author a member, exactly `|members| - 1` notifications — and a
failure of the notification bulk-insert never changes the post-creation
response (the helper swallows its own errors).
-/
theorem createPost_notification_fanout (db : List Community)
    (content communityId title : String) (author : Nat)
    (authorUsername : String) (file : Option StagedUpload) (insertOk : Bool)
    (newPostId : String) (X : Community)
    (hcontent : ¬ content = "") (hcid : ¬ communityId = "") :
    ((createPost db content communityId title author authorUsername file true
        insertOk newPostId).1 = { status := 201, success := true }) ∧
    (db.find? (fun c => c.id == communityId) = some X →
      ((createPost db content communityId title author authorUsername file
          true true newPostId).2.2.map (fun n => n.user) =
        (X.members.filter (fun m => m.user != author)).map (fun m => m.user)) ∧
      ((X.members.map (fun m => m.user)).Nodup →
        author ∈ X.members.map (fun m => m.user) →
        (createPost db content communityId title author authorUsername file
          true true newPostId).2.2.length = X.members.length - 1)) := by
  constructor
  · simp [createPost, hcontent, hcid]
  · intro hfound
    constructor
    · simp [createPost, hcontent, hcid, notifyCommunityMembers, hfound]
    · intro hnodup hmem
      have hlen := length_filter_ne_user X.members author hnodup hmem
      simp [createPost, hcontent, hcid, notifyCommunityMembers, hfound, hlen]

/--
C4 witness: author 1 posts in the concrete community with three other
members; the response is 201 even with a failing bulk insert, and with a
working insert exactly 3 notifications are created.
-/
theorem createPost_notification_fanout_witness :
    ((createPost [postersCommunity] "hello" "cid1" "" 1 "alice" none true
        false "p1").1 = { status := 201, success := true }) ∧
    (createPost [postersCommunity] "hello" "cid1" "" 1 "alice" none true true
        "p1").2.2.length = 3 := by
  have h := createPost_notification_fanout [postersCommunity] "hello" "cid1"
    "" 1 "alice" none false "p1" postersCommunity (by decide) (by decide)
  refine ⟨h.1, ?_⟩
  have h2 := (h.2 (by decide)).2 (by decide) (by decide)
  exact h2.trans (by decide)

/-! ## C10 -/

/--
C10: `createPost` validates only that content and community id are present;
the response is identical whatever the community store holds (in particular
when the referenced community does not exist or the author is not a member),
the 400 rejection happens exactly when content or community id is missing,
and otherwise (with a working broadcast) the post is created with a 201
response.
-/
theorem createPost_no_membership_check (db : List Community)
    (content communityId title : String) (author : Nat)
    (authorUsername : String) (file : Option StagedUpload)
    (broadcastOk insertOk : Bool) (newPostId : String) :
    ((createPost db content communityId title author authorUsername file
        broadcastOk insertOk newPostId).1 =
      (createPost [] content communityId title author authorUsername file
        broadcastOk insertOk newPostId).1) ∧
    ((createPost db content communityId title author authorUsername file
        broadcastOk insertOk newPostId).1.status = 400 ↔
      (content = "" ∨ communityId = "")) ∧
    (¬ content = "" → ¬ communityId = "" →
      (createPost db content communityId title author authorUsername file
        true insertOk newPostId).1 = { status := 201, success := true }) := by
  refine ⟨?_, ?_, ?_⟩
  · by_cases hv : (content == "" || communityId == "") = true
    · simp [createPost, hv]
    · cases broadcastOk <;> simp [createPost, hv]
  · by_cases hc : content = ""
    · simp [createPost, hc]
    · by_cases hid : communityId = ""
      · simp [createPost, hc, hid]
      · cases broadcastOk <;> simp [createPost, hc, hid]
  · intro hc hid
    simp [createPost, hc, hid]

/--
C10 witness: user 42 posts into community id "nowhere" over an empty
community store — no community exists and the author is a member of nothing —
yet the post is created with a 201 response.
-/
theorem createPost_no_membership_check_witness :
    (createPost [] "hi" "nowhere" "" 42 "bob" none true true "p9").1 =
      { status := 201, success := true } :=
  (createPost_no_membership_check [] "hi" "nowhere" "" 42 "bob" none true
    true "p9").2.2 (by decide) (by decide)

/-! ## C5 -/

/--
C5: refuted on the code.  The missing-required-field branch of `register`
(AuthController.js line 143) returns its 400 response without deleting the
staged file, unlike every later validation and conflict branch.  At the
concrete request `orphanReq` a file is staged and the username is missing:
the handler responds 400 and the staged file is not deleted, leaving an
orphaned upload.
-/
theorem register_missing_field_keeps_staged_file :
    orphanReq.file.isSome = true ∧
    register 5242880 [] orphanReq =
      { status := 400,
        message := "Please provide username, email, password, bio, and profile image",
        fileDeleted := false, created := false } := by
  constructor <;> rfl

/-! ## C6 -/

/--
C6 counterexample to the claim as stated: the same forgot-password request
(email "ann@mail.com", same generated OTP) run against a store where the
account exists and against one where it does not produces different
responses — the messages differ and the OTP value is included only for the
existing account — so the response distinguishes account existence.
-/
theorem forgotPassword_distinguishes_accounts :
    forgotPassword [resetUser] "123456" "ann@mail.com" ≠
      forgotPassword [] "123456" "ann@mail.com" := by
  decide

/--
C6 amended: for every provided (non-empty) email, `forgotPassword` responds
HTTP 200 with `success: true` whether or not a user with that email exists;
full two-run indistinguishability does not hold, because the message text
differs and the OTP is included in the payload for an existing account.
-/
theorem forgotPassword_success_shaped (db : List AuthUser)
    (resetOTP email : String) (hemail : ¬ email = "") :
    (forgotPassword db resetOTP email).status = 200 ∧
    (forgotPassword db resetOTP email).success = true := by
  unfold forgotPassword
  rw [if_neg (by simp [hemail])]
  cases hfind : db.find? (fun u => u.email == email) with
  | none => exact ⟨rfl, rfl⟩
  | some u => exact ⟨rfl, rfl⟩

/--
C6 witness: the empty store and the store holding the account both yield a
200 success-shaped response for "ann@mail.com".
-/
theorem forgotPassword_success_shaped_witness :
    (forgotPassword [] "123456" "ann@mail.com").status = 200 ∧
    (forgotPassword [resetUser] "123456" "ann@mail.com").success = true :=
  ⟨(forgotPassword_success_shaped [] "123456" "ann@mail.com" (by decide)).1,
   (forgotPassword_success_shaped [resetUser] "123456" "ann@mail.com"
     (by decide)).2⟩

/-! ## C7 -/

/--
C7: a reset-password call by an existing user whose submitted OTP is invalid
or expired responds 400 with the invalid-OTP message and saves the user with
the stored reset code and expiry cleared; consequently any subsequent
submission for that user — in particular of the previously correct code —
also fails with the invalid-OTP message until a new OTP is requested.
-/
theorem resetPassword_invalid_otp_clears (hash : String → String)
    (db : List AuthUser) (now : Nat) (email otp newPassword : String)
    (user : AuthUser)
    (hemail : ¬ email = "") (hotp : ¬ otp = "") (hnp : ¬ newPassword = "")
    (hlen : 6 ≤ newPassword.length)
    (hfind : db.find? (fun u => u.email == email) = some user)
    (hbad : user.verifyResetPasswordOTP otp now = false) :
    resetPassword hash db now email otp newPassword =
      { status := 400, success := false,
        message := "Invalid or expired OTP. Please restart the forgot password process.",
        savedUser := some { user with
          resetPasswordToken := none, resetPasswordExpires := none } } ∧
    (∀ db2 now2 otp2, ¬ otp2 = "" →
      db2.find? (fun u => u.email == email) =
        some { user with
          resetPasswordToken := none, resetPasswordExpires := none } →
      (resetPassword hash db2 now2 email otp2 newPassword).status = 400 ∧
      (resetPassword hash db2 now2 email otp2 newPassword).message =
        "Invalid or expired OTP. Please restart the forgot password process.") := by
  constructor
  · unfold resetPassword
    rw [if_neg (by simp [hemail, hotp, hnp]), if_neg (by omega)]
    simp only [hfind]
    simp [hbad]
  · intro db2 now2 otp2 hotp2 hfind2
    unfold resetPassword
    rw [if_neg (by simp [hemail, hotp2, hnp]), if_neg (by omega)]
    simp only [hfind2]
    have hcleared : AuthUser.verifyResetPasswordOTP
        { user with resetPasswordToken := none,
                    resetPasswordExpires := none } otp2 now2 = false := rfl
    rw [if_neg (by simp [hcleared])]
    exact ⟨rfl, rfl⟩

/--
C7 witness: `resetUser` holds the code "111111" expiring at time 100.
Submitting the correct code at time 200 (expired) fails and clears the
stored code, and re-submitting the same previously correct code at time 50
against the cleared state also fails.
-/
theorem resetPassword_invalid_otp_clears_witness :
    resetPassword (fun s => s) [resetUser] 200 "ann@mail.com" "111111"
      "newsecret" =
      { status := 400, success := false,
        message := "Invalid or expired OTP. Please restart the forgot password process.",
        savedUser := some clearedResetUser } ∧
    (resetPassword (fun s => s) [clearedResetUser] 50 "ann@mail.com" "111111"
      "newsecret").status = 400 := by
  have h := resetPassword_invalid_otp_clears (fun s => s) [resetUser] 200
    "ann@mail.com" "111111" "newsecret" resetUser (by decide) (by decide)
    (by decide) (by decide) (by decide) (by decide)
  exact ⟨h.1, (h.2 [clearedResetUser] 50 "111111" (by decide) (by decide)).1⟩

/-! ## C8 -/

set_option maxRecDepth 8000 in
/--
C8: the claim is right about the boundary but the code fails it at runtime.
The bio limit is indeed the strict greater-than-250 test, and a
250-character bio passes the bio-length check — the otherwise-valid request
below registers with 201 — but a 251-character bio does not fail with a
validation error: the bio branch's `fs.unlinkSync` call throws (`fs` comes
from 'fs/promises'), so the catch deletes the staged file and responds 500
"fs.unlinkSync is not a function", leaving the written 400 bio validation
response unreachable.
-/
theorem register_bio_boundary_server_error :
    register 5242880 []
      { username := "bob", email := "bob@mail.com", password := "secret1",
        bio := String.mk (List.replicate 251 'a'), interests := some "tech",
        file := some { path := "uploads/x.png", size := 100 } } =
      { status := 500, message := "fs.unlinkSync is not a function",
        fileDeleted := true, created := false } ∧
    register 5242880 []
      { username := "bob", email := "bob@mail.com", password := "secret1",
        bio := String.mk (List.replicate 250 'a'), interests := some "tech",
        file := some { path := "uploads/x.png", size := 100 } } =
      { status := 201,
        message := "Registration successful. Please check your notifications for OTP.",
        fileDeleted := false, created := true } := by
  constructor <;> rfl
